import Mathlib

/-!
# Soil sensor ingestion endpoint: `handleDataReceivedRequest`

A shallow embedding of `main.go`, lines 82-135: the `Data` struct and the HTTP
handler registered on `/create`.

The handler is embedded as a pure function from its inputs to the ordered list
of effects it performs. Everything the handler obtains from outside the
repository is an explicit input:

* the two configuration values it reads (`viper.GetString("espkey")`,
  `viper.GetString("dbtable")`);
* the outcome of `ioutil.ReadAll(r.Body)`;
* `json.Unmarshal` (standard library), as a function of the body bytes and of
  the struct it is asked to fill;
* `db.Prepare` and `stmt.Exec` (`database/sql`), as functions of their
  arguments returning an error or not;
* `time.Now().Format(layout)`, as a function of the layout;
* the error returned by writing to the `http.ResponseWriter`.

Go `error` values are represented by their message (`err.Error()`), which is
what `%v` prints.
-/

namespace SoilSensorApi

/-- A Go `float32`, represented by its IEEE-754 binary32 bit pattern. The
handler performs no arithmetic on these values; it only carries them from the
decoded body to the bind values of the statement. -/
structure Float32 where
  bits : Nat
  deriving DecidableEq, Repr

/-- A Go `[]byte`. -/
abbrev Bytes := List UInt8

/-- The struct `Data` of `main.go` (lines 83-89). The fields `Light` and
`Moisture` are commented out in the source and so are absent here. -/
structure Data where
  Key : String
  Temperature : Float32
  Humidity : Float32
  deriving DecidableEq, Repr

/-- The composite literal `Data{}` of line 108: every field has its zero value. -/
def Data.zero : Data :=
  { Key := "", Temperature := ⟨0⟩, Humidity := ⟨0⟩ }

/-- A bind value handed to `stmt.Exec`: the handler passes one `string` and two
`float32`. -/
inductive SqlArg where
  | str (s : String)
  | f32 (f : Float32)
  deriving DecidableEq, Repr

/-- A prepared statement `*sql.Stmt`: `Exec` returns `none` for a nil error and
`some msg` for an error. -/
structure Stmt where
  Exec : List SqlArg → Option String

/-- The database handle `db`: `Prepare` returns the statement or an error. -/
structure DB where
  Prepare : String → Except String Stmt

/-- The two configuration values the handler reads through `viper.GetString`. -/
structure Config where
  espkey : String
  dbtable : String

/-- The part of `*http.Request` the handler looks at: the method, and the
result of `ioutil.ReadAll(r.Body)`. -/
structure Request where
  Method : String
  Body : Except String Bytes

/-- Everything outside the request that the handler depends on. -/
structure Env where
  config : Config
  db : DB
  /-- The call `json.Unmarshal(body, &data)`: given the bytes and the current
  value of `data`, the filled struct or an error. -/
  unmarshal : Bytes → Data → Except String Data
  /-- The call `time.Now().Format(layout)`. -/
  timeFormat : String → String
  /-- The error, if any, returned by writing the given bytes to `w`. -/
  wWrite : String → Option String

/-- One observable action of the handler, in program order. `writeHeader` is
`w.WriteHeader(code)`, `write` hands bytes to the `http.ResponseWriter`,
`print` writes to standard output, `prepare` and `exec` are the two
`database/sql` calls together with the error they returned. -/
inductive Effect where
  | writeHeader (code : Nat)
  | write (bytes : String)
  | print (text : String)
  | prepare (query : String) (err : Option String)
  | exec (args : List SqlArg) (err : Option String)
  deriving DecidableEq, Repr

/-- The statement `fmt.Fprintln(w, msg)`: the operand followed by a newline is
written to `w`. -/
def Fprintln (msg : String) : Effect :=
  Effect.write (msg ++ "\n")

/-- The pattern of lines 95-98 and 116-119: `fmt.Fprintln(w, msg)` whose error,
when there is one, is printed to standard output. -/
def FprintlnChecked (env : Env) (msg : String) : List Effect :=
  match env.wWrite (msg ++ "\n") with
  | none => [Fprintln msg]
  | some e => [Fprintln msg, Effect.print ("Writing to http client error: " ++ e ++ "\n")]

/-- The layout string of line 129. -/
def timeLayout : String := "2006-01-02T15:04:05Z07:00"

/-- The query text of line 123 for the configured table. -/
def insertQuery (dbtable : String) : String :=
  "INSERT INTO " ++ dbtable ++ " (time,temperature,humidity,light,moisture) VALUES(?,?,?,?,?);"

/-- The bind values of line 129. -/
def bindValues (env : Env) (data : Data) : List SqlArg :=
  [SqlArg.str (env.timeFormat timeLayout), SqlArg.f32 data.Temperature, SqlArg.f32 data.Humidity]

/-- The function `handleDataReceivedRequest` of `main.go` (lines 92-135), as the
list of effects it performs before returning. -/
def handleDataReceivedRequest (env : Env) (r : Request) : List Effect :=
  if r.Method ≠ "POST" then
    FprintlnChecked env "API only can be called by POST Request"
  else
    match r.Body with
    | Except.error e => [Effect.print ("Reading http request body error: " ++ e ++ "\n")]
    | Except.ok body =>
      match env.unmarshal body Data.zero with
      | Except.error e =>
        [Effect.print ("Unmarshal json from http request body error: " ++ e ++ "\n")]
      | Except.ok data =>
        if data.Key ≠ env.config.espkey then
          FprintlnChecked env "Key is not provided or incorrect"
        else
          match env.db.Prepare (insertQuery env.config.dbtable) with
          | Except.error e =>
            [Effect.prepare (insertQuery env.config.dbtable) (some e),
             Effect.print ("Preparing mysql query error: " ++ e ++ "\n")]
          | Except.ok stmt =>
            match stmt.Exec (bindValues env data) with
            | some e =>
              [Effect.prepare (insertQuery env.config.dbtable) none,
               Effect.exec (bindValues env data) (some e),
               Effect.print ("Executing mysql query error: " ++ e ++ "\n")]
            | none =>
              [Effect.prepare (insertQuery env.config.dbtable) none,
               Effect.exec (bindValues env data) none,
               Fprintln "Success"]

/-! ## Observations on a list of effects -/

/-- The response body: the bytes handed to the `http.ResponseWriter`, in order. -/
def responseBody : List Effect → String
  | [] => ""
  | Effect.write bytes :: es => bytes ++ responseBody es
  | _ :: es => responseBody es

/-- Whether the effect is a call of `w.WriteHeader`. -/
def Effect.isWriteHeader : Effect → Bool
  | Effect.writeHeader _ => true
  | _ => false

/-- The status code of the response: the code of the first `w.WriteHeader`
call, and 200 (what `net/http` sends) when the handler made none. -/
def statusCode : List Effect → Nat
  | [] => 200
  | Effect.writeHeader code :: _ => code
  | _ :: es => statusCode es

/-- Whether the effect is a database call (`db.Prepare` or `stmt.Exec`). -/
def Effect.isDbCall : Effect → Bool
  | Effect.prepare _ _ => true
  | Effect.exec _ _ => true
  | _ => false

/-- The database calls made, in order. -/
def dbCalls (es : List Effect) : List Effect :=
  es.filter Effect.isDbCall

/-- Whether the effect is a database call that returned an error. -/
def Effect.isFailedDbCall : Effect → Bool
  | Effect.prepare _ (some _) => true
  | Effect.exec _ (some _) => true
  | _ => false

/-- The query texts passed to `db.Prepare`, in order. -/
def preparedQueries : List Effect → List String
  | [] => []
  | Effect.prepare query _ :: es => query :: preparedQueries es
  | _ :: es => preparedQueries es

/-- The bind-value lists passed to `stmt.Exec`, in order. -/
def execArgs : List Effect → List (List SqlArg)
  | [] => []
  | Effect.exec args _ :: es => args :: execArgs es
  | _ :: es => execArgs es

/-- The bind-value lists of the `stmt.Exec` calls that returned no error: the
inserts that were carried out. -/
def insertsDone : List Effect → List (List SqlArg)
  | [] => []
  | Effect.exec args none :: es => args :: insertsDone es
  | _ :: es => insertsDone es

/-- The number of `?` characters in a query text. -/
def placeholderCount (query : String) : Nat :=
  query.toList.count '?'

/-! ## Sample inputs -/

/-- The bytes of `{"key":"abc","temperature":19.9,"humidity":42.1}`. -/
def sampleBody : Bytes :=
  [123, 34, 107, 101, 121, 34, 58, 34, 97, 98, 99, 34, 44, 34, 116, 101, 109, 112, 101, 114,
   97, 116, 117, 114, 101, 34, 58, 49, 57, 46, 57, 44, 34, 104, 117, 109, 105, 100, 105, 116,
   121, 34, 58, 52, 50, 46, 49, 125]

/-- The bytes of `{"temperature":19.9,"humidity":42.1}`: no `key` member. -/
def keylessBody : Bytes :=
  [123, 34, 116, 101, 109, 112, 101, 114, 97, 116, 117, 114, 101, 34, 58, 49, 57, 46, 57, 44,
   34, 104, 117, 109, 105, 100, 105, 116, 121, 34, 58, 52, 50, 46, 49, 125]

/-- The bytes of `{"key":"wrong","temperature":19.9,"humidity":42.1}`. -/
def wrongKeyBody : Bytes :=
  [123, 34, 107, 101, 121, 34, 58, 34, 119, 114, 111, 110, 103, 34, 44, 34, 116, 101, 109,
   112, 101, 114, 97, 116, 117, 114, 101, 34, 58, 49, 57, 46, 57, 44, 34, 104, 117, 109, 105,
   100, 105, 116, 121, 34, 58, 52, 50, 46, 49, 125]

/-- The bytes of the truncated text `{"key":"abc","temperature":`. -/
def truncatedBody : Bytes :=
  [123, 34, 107, 101, 121, 34, 58, 34, 97, 98, 99, 34, 44, 34, 116, 101, 109, 112, 101, 114,
   97, 116, 117, 114, 101, 34, 58]

/-- The `float32` nearest to 19.9 (bit pattern `0x419f3333`). -/
def f19_9 : Float32 := ⟨1100952371⟩

/-- The `float32` nearest to 42.1 (bit pattern `0x42286666`). -/
def f42_1 : Float32 := ⟨1109943910⟩

/-- What `json.Unmarshal` returns on the three well-formed sample bodies; every
other body is answered with a syntax error. A member absent from the body
leaves the corresponding field of the struct as it was. -/
def sampleUnmarshal (body : Bytes) (data : Data) : Except String Data :=
  if body = sampleBody then
    Except.ok { Key := "abc", Temperature := f19_9, Humidity := f42_1 }
  else if body = keylessBody then
    Except.ok { data with Temperature := f19_9, Humidity := f42_1 }
  else if body = wrongKeyBody then
    Except.ok { Key := "wrong", Temperature := f19_9, Humidity := f42_1 }
  else
    Except.error "unexpected end of JSON input"

/-- A statement whose execution returns no error. -/
def okStmt : Stmt := { Exec := fun _ => none }

/-- A statement whose execution returns an error. -/
def failingStmt : Stmt := { Exec := fun _ => some "sql: expected 5 arguments, got 3" }

/-- A database on which preparation and execution return no error. -/
def okDB : DB := { Prepare := fun _ => Except.ok okStmt }

/-- A database on which preparation returns an error. -/
def prepareFailingDB : DB := { Prepare := fun _ => Except.error "connection refused" }

/-- A database on which preparation returns no error and execution an error. -/
def execFailingDB : DB := { Prepare := fun _ => Except.ok failingStmt }

/-- A statement prepared from `query` by a database that counts bind values
the way `database/sql` does: `Exec` returns the error
"sql: expected N arguments, got M" when the number M of bind values differs from
the number N of `?` in the query, and no error otherwise. -/
def arityCheckingStmt (query : String) : Stmt :=
  { Exec := fun args =>
      if args.length = placeholderCount query then none
      else some ("sql: expected " ++ toString (placeholderCount query)
        ++ " arguments, got " ++ toString args.length) }

/-- A database that is up, prepares every statement, and counts the bind values
of every execution against the placeholders of the statement. -/
def arityCheckingDB : DB := { Prepare := fun query => Except.ok (arityCheckingStmt query) }

/-- A configuration with `espkey: abc` and `dbtable: table1`. -/
def sampleConfig : Config := { espkey := "abc", dbtable := "table1" }

/-- An environment with the sample configuration and decoder, the given
database, a fixed clock and a response writer that never fails. -/
def sampleEnv (db : DB) : Env :=
  { config := sampleConfig
    db := db
    unmarshal := sampleUnmarshal
    timeFormat := fun _ => "2021-03-04T05:06:07+08:00"
    wWrite := fun _ => none }

/-- A request with the given method whose body is read in full. -/
def requestOf (method : String) (body : Bytes) : Request :=
  { Method := method, Body := Except.ok body }

/-- The sample environment with the configured key replaced by the empty
string (`espkey: ""`). -/
def emptyKeyEnv (db : DB) : Env :=
  { sampleEnv db with config := { espkey := "", dbtable := "table1" } }

/-! ## The paths of the handler -/

theorem handle_of_not_post (env : Env) (r : Request) (hm : r.Method ≠ "POST") :
    handleDataReceivedRequest env r
      = FprintlnChecked env "API only can be called by POST Request" := by
  simp [handleDataReceivedRequest, hm]

theorem handle_of_read_error (env : Env) (r : Request) (e : String)
    (hm : r.Method = "POST") (hb : r.Body = Except.error e) :
    handleDataReceivedRequest env r
      = [Effect.print ("Reading http request body error: " ++ e ++ "\n")] := by
  simp [handleDataReceivedRequest, hm, hb]

theorem handle_of_decode_error (env : Env) (r : Request) (body : Bytes) (e : String)
    (hm : r.Method = "POST") (hb : r.Body = Except.ok body)
    (hu : env.unmarshal body Data.zero = Except.error e) :
    handleDataReceivedRequest env r
      = [Effect.print ("Unmarshal json from http request body error: " ++ e ++ "\n")] := by
  simp [handleDataReceivedRequest, hm, hb, hu]

theorem handle_of_bad_key (env : Env) (r : Request) (body : Bytes) (data : Data)
    (hm : r.Method = "POST") (hb : r.Body = Except.ok body)
    (hu : env.unmarshal body Data.zero = Except.ok data)
    (hk : data.Key ≠ env.config.espkey) :
    handleDataReceivedRequest env r
      = FprintlnChecked env "Key is not provided or incorrect" := by
  simp [handleDataReceivedRequest, hm, hb, hu, hk]

theorem handle_of_prepare_error (env : Env) (r : Request) (body : Bytes) (data : Data)
    (e : String) (hm : r.Method = "POST") (hb : r.Body = Except.ok body)
    (hu : env.unmarshal body Data.zero = Except.ok data)
    (hk : data.Key = env.config.espkey)
    (hp : env.db.Prepare (insertQuery env.config.dbtable) = Except.error e) :
    handleDataReceivedRequest env r
      = [Effect.prepare (insertQuery env.config.dbtable) (some e),
         Effect.print ("Preparing mysql query error: " ++ e ++ "\n")] := by
  simp [handleDataReceivedRequest, hm, hb, hu, hk, hp]

theorem handle_of_exec_error (env : Env) (r : Request) (body : Bytes) (data : Data)
    (stmt : Stmt) (e : String) (hm : r.Method = "POST") (hb : r.Body = Except.ok body)
    (hu : env.unmarshal body Data.zero = Except.ok data)
    (hk : data.Key = env.config.espkey)
    (hp : env.db.Prepare (insertQuery env.config.dbtable) = Except.ok stmt)
    (he : stmt.Exec (bindValues env data) = some e) :
    handleDataReceivedRequest env r
      = [Effect.prepare (insertQuery env.config.dbtable) none,
         Effect.exec (bindValues env data) (some e),
         Effect.print ("Executing mysql query error: " ++ e ++ "\n")] := by
  simp [handleDataReceivedRequest, hm, hb, hu, hk, hp, he]

theorem handle_of_success (env : Env) (r : Request) (body : Bytes) (data : Data)
    (stmt : Stmt) (hm : r.Method = "POST") (hb : r.Body = Except.ok body)
    (hu : env.unmarshal body Data.zero = Except.ok data)
    (hk : data.Key = env.config.espkey)
    (hp : env.db.Prepare (insertQuery env.config.dbtable) = Except.ok stmt)
    (he : stmt.Exec (bindValues env data) = none) :
    handleDataReceivedRequest env r
      = [Effect.prepare (insertQuery env.config.dbtable) none,
         Effect.exec (bindValues env data) none,
         Fprintln "Success"] := by
  simp [handleDataReceivedRequest, hm, hb, hu, hk, hp, he]

/-- The effects of a checked `Fprintln`: one write of the message and its
newline, followed by at most one line on standard output. -/
theorem fprintlnChecked_cases (env : Env) (msg : String) :
    FprintlnChecked env msg = [Effect.write (msg ++ "\n")]
      ∨ ∃ e, FprintlnChecked env msg
          = [Effect.write (msg ++ "\n"),
             Effect.print ("Writing to http client error: " ++ e ++ "\n")] := by
  unfold FprintlnChecked Fprintln
  cases env.wWrite (msg ++ "\n") with
  | none => exact Or.inl rfl
  | some e => exact Or.inr ⟨e, rfl⟩

theorem responseBody_fprintlnChecked (env : Env) (msg : String) :
    responseBody (FprintlnChecked env msg) = msg ++ "\n" := by
  rcases fprintlnChecked_cases env msg with h | ⟨e, h⟩ <;> simp [h, responseBody]

theorem dbCalls_fprintlnChecked (env : Env) (msg : String) :
    dbCalls (FprintlnChecked env msg) = [] := by
  rcases fprintlnChecked_cases env msg with h | ⟨e, h⟩ <;>
    simp [h, dbCalls, Effect.isDbCall]

/-- Every run of the handler is one of seven effect lists. -/
theorem handle_cases (env : Env) (r : Request) :
    (r.Method ≠ "POST" ∧ handleDataReceivedRequest env r
        = FprintlnChecked env "API only can be called by POST Request")
    ∨ (∃ e, r.Method = "POST" ∧ r.Body = Except.error e ∧ handleDataReceivedRequest env r
        = [Effect.print ("Reading http request body error: " ++ e ++ "\n")])
    ∨ (∃ body e, r.Method = "POST" ∧ r.Body = Except.ok body
        ∧ env.unmarshal body Data.zero = Except.error e
        ∧ handleDataReceivedRequest env r
          = [Effect.print ("Unmarshal json from http request body error: " ++ e ++ "\n")])
    ∨ (∃ body data, r.Method = "POST" ∧ r.Body = Except.ok body
        ∧ env.unmarshal body Data.zero = Except.ok data ∧ data.Key ≠ env.config.espkey
        ∧ handleDataReceivedRequest env r
          = FprintlnChecked env "Key is not provided or incorrect")
    ∨ (∃ body data e, r.Method = "POST" ∧ r.Body = Except.ok body
        ∧ env.unmarshal body Data.zero = Except.ok data ∧ data.Key = env.config.espkey
        ∧ env.db.Prepare (insertQuery env.config.dbtable) = Except.error e
        ∧ handleDataReceivedRequest env r
          = [Effect.prepare (insertQuery env.config.dbtable) (some e),
             Effect.print ("Preparing mysql query error: " ++ e ++ "\n")])
    ∨ (∃ body data stmt e, r.Method = "POST" ∧ r.Body = Except.ok body
        ∧ env.unmarshal body Data.zero = Except.ok data ∧ data.Key = env.config.espkey
        ∧ env.db.Prepare (insertQuery env.config.dbtable) = Except.ok stmt
        ∧ stmt.Exec (bindValues env data) = some e
        ∧ handleDataReceivedRequest env r
          = [Effect.prepare (insertQuery env.config.dbtable) none,
             Effect.exec (bindValues env data) (some e),
             Effect.print ("Executing mysql query error: " ++ e ++ "\n")])
    ∨ (∃ body data stmt, r.Method = "POST" ∧ r.Body = Except.ok body
        ∧ env.unmarshal body Data.zero = Except.ok data ∧ data.Key = env.config.espkey
        ∧ env.db.Prepare (insertQuery env.config.dbtable) = Except.ok stmt
        ∧ stmt.Exec (bindValues env data) = none
        ∧ handleDataReceivedRequest env r
          = [Effect.prepare (insertQuery env.config.dbtable) none,
             Effect.exec (bindValues env data) none,
             Fprintln "Success"]) := by
  by_cases hm : r.Method = "POST"
  · right
    cases hb : r.Body with
    | error e => exact Or.inl ⟨e, hm, rfl, handle_of_read_error env r e hm hb⟩
    | ok body =>
      right
      cases hu : env.unmarshal body Data.zero with
      | error e => exact Or.inl ⟨body, e, hm, rfl, hu, handle_of_decode_error env r body e hm hb hu⟩
      | ok data =>
        right
        by_cases hk : data.Key = env.config.espkey
        · right
          cases hp : env.db.Prepare (insertQuery env.config.dbtable) with
          | error e =>
            exact Or.inl ⟨body, data, e, hm, rfl, hu, hk, rfl,
              handle_of_prepare_error env r body data e hm hb hu hk hp⟩
          | ok stmt =>
            right
            cases he : stmt.Exec (bindValues env data) with
            | some e =>
              exact Or.inl ⟨body, data, stmt, e, hm, rfl, hu, hk, rfl, he,
                handle_of_exec_error env r body data stmt e hm hb hu hk hp he⟩
            | none =>
              exact Or.inr ⟨body, data, stmt, hm, rfl, hu, hk, rfl, he,
                handle_of_success env r body data stmt hm hb hu hk hp he⟩
        · exact Or.inl ⟨body, data, hm, rfl, hu, hk, handle_of_bad_key env r body data hm hb hu hk⟩
  · exact Or.inl ⟨hm, handle_of_not_post env r hm⟩

/-! ## Requests that are rejected -/

/-- C1, as written, fails: for the `GET` request carrying the sample body the
response body is not the text "API only can be called by POST Request"; the
handler wrote that text and a newline. -/
theorem c1_body_is_not_bare_message :
    (requestOf "GET" sampleBody).Method ≠ "POST"
    ∧ responseBody (handleDataReceivedRequest (sampleEnv okDB) (requestOf "GET" sampleBody))
        ≠ "API only can be called by POST Request"
    ∧ responseBody (handleDataReceivedRequest (sampleEnv okDB) (requestOf "GET" sampleBody))
        = "API only can be called by POST Request\n" := by
  decide

/-- C1, amended: for every request whose method is not POST, whatever its body
and whatever key it carries, the response body is the text
"API only can be called by POST Request" followed by one newline, and the
handler makes no database call (neither `Prepare` nor `Exec`). -/
theorem c1_non_post_rejected (env : Env) (r : Request) (hm : r.Method ≠ "POST") :
    responseBody (handleDataReceivedRequest env r)
        = "API only can be called by POST Request\n"
    ∧ dbCalls (handleDataReceivedRequest env r) = []
    ∧ preparedQueries (handleDataReceivedRequest env r) = []
    ∧ execArgs (handleDataReceivedRequest env r) = [] := by
  rw [handle_of_not_post env r hm]
  rcases fprintlnChecked_cases env "API only can be called by POST Request" with h | ⟨e, h⟩ <;>
    simp [h, responseBody, dbCalls, Effect.isDbCall, preparedQueries, execArgs]

/-- The amended C1 at a `GET` request carrying the sample body. -/
theorem c1_non_post_rejected_witness :
    (requestOf "GET" sampleBody).Method ≠ "POST"
    ∧ responseBody (handleDataReceivedRequest (sampleEnv okDB) (requestOf "GET" sampleBody))
        = "API only can be called by POST Request\n"
    ∧ dbCalls (handleDataReceivedRequest (sampleEnv okDB) (requestOf "GET" sampleBody)) = [] :=
  ⟨by decide,
   (c1_non_post_rejected (sampleEnv okDB) (requestOf "GET" sampleBody) (by decide)).1,
   (c1_non_post_rejected (sampleEnv okDB) (requestOf "GET" sampleBody) (by decide)).2.1⟩

/-- C2, as written, fails: for the POST carrying the key "wrong" against the
configured key "abc" the response body is not the text
"Key is not provided or incorrect"; the handler wrote that text and a newline. -/
theorem c2_body_is_not_bare_message :
    (requestOf "POST" wrongKeyBody).Method = "POST"
    ∧ (sampleEnv okDB).unmarshal wrongKeyBody Data.zero
        = Except.ok { Key := "wrong", Temperature := f19_9, Humidity := f42_1 }
    ∧ "wrong" ≠ (sampleEnv okDB).config.espkey
    ∧ responseBody (handleDataReceivedRequest (sampleEnv okDB) (requestOf "POST" wrongKeyBody))
        ≠ "Key is not provided or incorrect"
    ∧ responseBody (handleDataReceivedRequest (sampleEnv okDB) (requestOf "POST" wrongKeyBody))
        = "Key is not provided or incorrect\n" :=
  ⟨by decide, rfl, by decide, by decide, by decide⟩

/-- C2, amended: for every POST request whose body decodes and whose decoded
key differs from the configured `espkey`, the response body is the text
"Key is not provided or incorrect" followed by one newline, and the handler
makes no database call. -/
theorem c2_bad_key_rejected (env : Env) (r : Request) (body : Bytes) (data : Data)
    (hm : r.Method = "POST") (hb : r.Body = Except.ok body)
    (hu : env.unmarshal body Data.zero = Except.ok data)
    (hk : data.Key ≠ env.config.espkey) :
    responseBody (handleDataReceivedRequest env r) = "Key is not provided or incorrect\n"
    ∧ dbCalls (handleDataReceivedRequest env r) = []
    ∧ insertsDone (handleDataReceivedRequest env r) = [] := by
  rw [handle_of_bad_key env r body data hm hb hu hk]
  rcases fprintlnChecked_cases env "Key is not provided or incorrect" with h | ⟨e, h⟩ <;>
    simp [h, responseBody, dbCalls, Effect.isDbCall, insertsDone]

/-- The amended C2 at the POST carrying the key "wrong". -/
theorem c2_bad_key_rejected_witness :
    responseBody (handleDataReceivedRequest (sampleEnv okDB) (requestOf "POST" wrongKeyBody))
        = "Key is not provided or incorrect\n"
    ∧ dbCalls (handleDataReceivedRequest (sampleEnv okDB) (requestOf "POST" wrongKeyBody)) = []
    ∧ insertsDone (handleDataReceivedRequest (sampleEnv okDB) (requestOf "POST" wrongKeyBody))
        = [] :=
  c2_bad_key_rejected (sampleEnv okDB) (requestOf "POST" wrongKeyBody) wrongKeyBody
    { Key := "wrong", Temperature := f19_9, Humidity := f42_1 } rfl rfl rfl (by decide)

/-- C5: for every POST request whose body is read and fails to decode, the
handler returns after a single effect, a line on standard output: it writes
nothing to the response (the body is empty) and makes no database call. -/
theorem c5_decode_failure_is_silent (env : Env) (r : Request) (body : Bytes) (e : String)
    (hm : r.Method = "POST") (hb : r.Body = Except.ok body)
    (hu : env.unmarshal body Data.zero = Except.error e) :
    handleDataReceivedRequest env r
        = [Effect.print ("Unmarshal json from http request body error: " ++ e ++ "\n")]
    ∧ responseBody (handleDataReceivedRequest env r) = ""
    ∧ (∀ bytes, Effect.write bytes ∉ handleDataReceivedRequest env r)
    ∧ dbCalls (handleDataReceivedRequest env r) = [] := by
  rw [handle_of_decode_error env r body e hm hb hu]
  simp [responseBody, dbCalls, Effect.isDbCall]

/-- C5 at a POST whose body is a truncated JSON text. -/
theorem c5_decode_failure_is_silent_witness :
    responseBody (handleDataReceivedRequest (sampleEnv okDB) (requestOf "POST" truncatedBody))
        = ""
    ∧ dbCalls (handleDataReceivedRequest (sampleEnv okDB) (requestOf "POST" truncatedBody))
        = [] :=
  ⟨(c5_decode_failure_is_silent (sampleEnv okDB) (requestOf "POST" truncatedBody) truncatedBody
      "unexpected end of JSON input" rfl rfl rfl).2.1,
   (c5_decode_failure_is_silent (sampleEnv okDB) (requestOf "POST" truncatedBody) truncatedBody
      "unexpected end of JSON input" rfl rfl rfl).2.2.2⟩

/-! ## Requests that reach the database -/

/-- The query text splits into the configured table name between two fixed
pieces, and the fixed pieces hold exactly five `?`. -/
theorem placeholderCount_insertQuery (dbtable : String) :
    placeholderCount (insertQuery dbtable) = placeholderCount dbtable + 5 := by
  have h1 : placeholderCount "INSERT INTO " = 0 := by decide
  have h2 : placeholderCount
      " (time,temperature,humidity,light,moisture) VALUES(?,?,?,?,?);" = 5 := by decide
  unfold placeholderCount at *
  simp only [insertQuery, String.toList, String.data_append, List.count_append] at *
  omega

/-- C3 does not hold of the code, by a slip in the handler: the statement of
line 123 has five `?` and line 129 binds three values. For every POST request
whose body decodes and whose key equals the configured `espkey`, on every
database that refuses an execution whose number of bind values differs from
the number of placeholders of the statement (as `database/sql` does), no insert
is carried out and nothing is written to the response, where the claim has
exactly one row appended. -/
theorem c3_no_insert_on_arity_checking_db (env : Env) (r : Request) (body : Bytes)
    (data : Data) (hm : r.Method = "POST") (hb : r.Body = Except.ok body)
    (hu : env.unmarshal body Data.zero = Except.ok data)
    (hk : data.Key = env.config.espkey)
    (harity : ∀ query stmt args, env.db.Prepare query = Except.ok stmt →
      args.length ≠ placeholderCount query → stmt.Exec args ≠ none) :
    insertsDone (handleDataReceivedRequest env r) = []
    ∧ responseBody (handleDataReceivedRequest env r) = ""
    ∧ (bindValues env data).length = 3
    ∧ placeholderCount (insertQuery env.config.dbtable)
        = placeholderCount env.config.dbtable + 5 := by
  refine ⟨?_, ?_, rfl, placeholderCount_insertQuery _⟩
  all_goals
    cases hp : env.db.Prepare (insertQuery env.config.dbtable) with
    | error e =>
      rw [handle_of_prepare_error env r body data e hm hb hu hk hp]
      simp [insertsDone, responseBody]
    | ok stmt =>
      cases he : stmt.Exec (bindValues env data) with
      | some e =>
        rw [handle_of_exec_error env r body data stmt e hm hb hu hk hp he]
        simp [insertsDone, responseBody]
      | none =>
        have hlen : (bindValues env data).length
            ≠ placeholderCount (insertQuery env.config.dbtable) := by
          rw [placeholderCount_insertQuery]
          simp [bindValues]
        exact absurd he (harity _ stmt _ hp hlen)

/-- C3 at the scenario of the claim: the body
`{"key":"abc","temperature":19.9,"humidity":42.1}` under `espkey: abc`, on a
database that is up and counts bind values. The execution is refused, no
insert is carried out and the response body is empty. -/
theorem c3_no_insert_on_arity_checking_db_witness :
    handleDataReceivedRequest (sampleEnv arityCheckingDB) (requestOf "POST" sampleBody)
        = [Effect.prepare
            "INSERT INTO table1 (time,temperature,humidity,light,moisture) VALUES(?,?,?,?,?);"
            none,
           Effect.exec
            [SqlArg.str "2021-03-04T05:06:07+08:00", SqlArg.f32 f19_9, SqlArg.f32 f42_1]
            (some "sql: expected 5 arguments, got 3"),
           Effect.print "Executing mysql query error: sql: expected 5 arguments, got 3\n"]
    ∧ insertsDone
        (handleDataReceivedRequest (sampleEnv arityCheckingDB) (requestOf "POST" sampleBody))
        = []
    ∧ responseBody
        (handleDataReceivedRequest (sampleEnv arityCheckingDB) (requestOf "POST" sampleBody))
        = "" :=
  ⟨by decide,
   (c3_no_insert_on_arity_checking_db (sampleEnv arityCheckingDB) (requestOf "POST" sampleBody)
      sampleBody { Key := "abc", Temperature := f19_9, Humidity := f42_1 } rfl rfl rfl rfl
      (fun query stmt args hp hne => by
        cases hp
        simp [arityCheckingStmt, hne])).1,
   (c3_no_insert_on_arity_checking_db (sampleEnv arityCheckingDB) (requestOf "POST" sampleBody)
      sampleBody { Key := "abc", Temperature := f19_9, Humidity := f42_1 } rfl rfl rfl rfl
      (fun query stmt args hp hne => by
        cases hp
        simp [arityCheckingStmt, hne])).2.1⟩

/-- C7: for every POST request whose body decodes and whose key equals the
configured `espkey`, the one statement prepared is "INSERT INTO " followed by
the configured table name followed by
" (time,temperature,humidity,light,moisture) VALUES(?,?,?,?,?);", a text that
adds exactly five `?` to those of the table name; every execution supplies
exactly three bind values, the timestamp, the temperature and the humidity of
the request in that order; and there is exactly one execution whenever the
preparation returned no error. -/
theorem c7_statement_and_bind_values (env : Env) (r : Request) (body : Bytes) (data : Data)
    (hm : r.Method = "POST") (hb : r.Body = Except.ok body)
    (hu : env.unmarshal body Data.zero = Except.ok data)
    (hk : data.Key = env.config.espkey) :
    preparedQueries (handleDataReceivedRequest env r)
        = ["INSERT INTO " ++ env.config.dbtable
            ++ " (time,temperature,humidity,light,moisture) VALUES(?,?,?,?,?);"]
    ∧ (∀ q ∈ preparedQueries (handleDataReceivedRequest env r),
        placeholderCount q = placeholderCount env.config.dbtable + 5)
    ∧ (∀ args ∈ execArgs (handleDataReceivedRequest env r),
        args = [SqlArg.str (env.timeFormat "2006-01-02T15:04:05Z07:00"),
                SqlArg.f32 data.Temperature, SqlArg.f32 data.Humidity]
        ∧ args.length = 3)
    ∧ (∀ stmt, env.db.Prepare (insertQuery env.config.dbtable) = Except.ok stmt →
        (execArgs (handleDataReceivedRequest env r)).length = 1) := by
  have hq : ∀ q ∈ [insertQuery env.config.dbtable],
      placeholderCount q = placeholderCount env.config.dbtable + 5 := by
    intro q hq
    rw [List.mem_singleton.mp hq]
    exact placeholderCount_insertQuery _
  cases hp : env.db.Prepare (insertQuery env.config.dbtable) with
  | error e =>
    rw [handle_of_prepare_error env r body data e hm hb hu hk hp]
    refine ⟨by simp [preparedQueries, insertQuery], ?_, by simp [execArgs], by simp⟩
    simpa [preparedQueries] using hq
  | ok stmt =>
    cases he : stmt.Exec (bindValues env data) with
    | some e =>
      rw [handle_of_exec_error env r body data stmt e hm hb hu hk hp he]
      refine ⟨by simp [preparedQueries, insertQuery], ?_,
        by simp [execArgs, bindValues, timeLayout], by simp [execArgs]⟩
      simpa [preparedQueries] using hq
    | none =>
      rw [handle_of_success env r body data stmt hm hb hu hk hp he]
      refine ⟨by simp [preparedQueries, insertQuery, Fprintln], ?_,
        by simp [execArgs, bindValues, timeLayout, Fprintln], by simp [execArgs, Fprintln]⟩
      simpa [preparedQueries, Fprintln] using hq

/-- C7 at the sample POST against a database whose execution fails. -/
theorem c7_statement_and_bind_values_witness :
    preparedQueries
        (handleDataReceivedRequest (sampleEnv execFailingDB) (requestOf "POST" sampleBody))
        = ["INSERT INTO " ++ "table1"
            ++ " (time,temperature,humidity,light,moisture) VALUES(?,?,?,?,?);"]
    ∧ execArgs
        (handleDataReceivedRequest (sampleEnv execFailingDB) (requestOf "POST" sampleBody))
        = [[SqlArg.str "2021-03-04T05:06:07+08:00", SqlArg.f32 f19_9, SqlArg.f32 f42_1]] :=
  ⟨(c7_statement_and_bind_values (sampleEnv execFailingDB) (requestOf "POST" sampleBody)
      sampleBody { Key := "abc", Temperature := f19_9, Humidity := f42_1 } rfl rfl rfl rfl).1,
   by decide⟩

/-! ## The response -/

theorem responseBody_api_only (env : Env) :
    responseBody (FprintlnChecked env "API only can be called by POST Request")
      = "API only can be called by POST Request\n" := by
  rw [responseBody_fprintlnChecked]; decide

theorem responseBody_bad_key (env : Env) :
    responseBody (FprintlnChecked env "Key is not provided or incorrect")
      = "Key is not provided or incorrect\n" := by
  rw [responseBody_fprintlnChecked]; decide

theorem write_mem_fprintlnChecked (env : Env) (msg bytes : String) :
    Effect.write bytes ∈ FprintlnChecked env msg ↔ bytes = msg ++ "\n" := by
  rcases fprintlnChecked_cases env msg with h | ⟨e, h⟩ <;> simp [h]

theorem not_isWriteHeader_fprintlnChecked (env : Env) (msg : String) :
    ∀ e ∈ FprintlnChecked env msg, e.isWriteHeader = false := by
  rcases fprintlnChecked_cases env msg with h | ⟨e, h⟩ <;> simp [h, Effect.isWriteHeader]

theorem statusCode_fprintlnChecked (env : Env) (msg : String) :
    statusCode (FprintlnChecked env msg) = 200 := by
  rcases fprintlnChecked_cases env msg with h | ⟨e, h⟩ <;> simp [h, statusCode]

/-- C4, as written, fails: the sample POST meets every condition of the claim
(POST, body decoded, key equal to the configured one, preparation and execution
without error), and the response is not the text "Success": it is that text
and a newline. -/
theorem c4_success_body_is_not_bare_message :
    (requestOf "POST" sampleBody).Method = "POST"
    ∧ (sampleEnv okDB).unmarshal sampleBody Data.zero
        = Except.ok { Key := "abc", Temperature := f19_9, Humidity := f42_1 }
    ∧ "abc" = (sampleEnv okDB).config.espkey
    ∧ (sampleEnv okDB).db.Prepare (insertQuery (sampleEnv okDB).config.dbtable)
        = Except.ok okStmt
    ∧ okStmt.Exec (bindValues (sampleEnv okDB)
        { Key := "abc", Temperature := f19_9, Humidity := f42_1 }) = none
    ∧ responseBody (handleDataReceivedRequest (sampleEnv okDB) (requestOf "POST" sampleBody))
        ≠ "Success"
    ∧ responseBody (handleDataReceivedRequest (sampleEnv okDB) (requestOf "POST" sampleBody))
        = "Success\n" :=
  ⟨by decide, rfl, by decide, rfl, rfl, by decide, by decide⟩

/-- C4, amended: the response body is the text "Success" followed by one
newline if and only if the request is a POST, its body is read and decodes, its
key equals the configured `espkey`, and both `db.Prepare` and `stmt.Exec`
return no error; and the handler hands those bytes to the response writer on no
other path. -/
theorem c4_success_iff (env : Env) (r : Request) :
    (responseBody (handleDataReceivedRequest env r) = "Success\n"
      ↔ (r.Method = "POST" ∧ ∃ body data stmt, r.Body = Except.ok body
          ∧ env.unmarshal body Data.zero = Except.ok data
          ∧ data.Key = env.config.espkey
          ∧ env.db.Prepare (insertQuery env.config.dbtable) = Except.ok stmt
          ∧ stmt.Exec (bindValues env data) = none))
    ∧ (Effect.write "Success\n" ∈ handleDataReceivedRequest env r
      ↔ (r.Method = "POST" ∧ ∃ body data stmt, r.Body = Except.ok body
          ∧ env.unmarshal body Data.zero = Except.ok data
          ∧ data.Key = env.config.espkey
          ∧ env.db.Prepare (insertQuery env.config.dbtable) = Except.ok stmt
          ∧ stmt.Exec (bindValues env data) = none)) := by
  have n1 : ¬ ("API only can be called by POST Request\n" = "Success\n") := by decide
  have n2 : ¬ ("Key is not provided or incorrect\n" = "Success\n") := by decide
  have n4 : ¬ ("Success\n" = "API only can be called by POST Request" ++ "\n") := by decide
  have n5 : ¬ ("Success\n" = "Key is not provided or incorrect" ++ "\n") := by decide
  have s1 : "Success" ++ "\n" = "Success\n" := by decide
  rcases handle_cases env r with ⟨hm, h⟩ | ⟨e, hm, hb, h⟩ | ⟨body, e, hm, hb, hu, h⟩
    | ⟨body, data, hm, hb, hu, hk, h⟩ | ⟨body, data, e, hm, hb, hu, hk, hp, h⟩
    | ⟨body, data, stmt, e, hm, hb, hu, hk, hp, he, h⟩
    | ⟨body, data, stmt, hm, hb, hu, hk, hp, he, h⟩
  · rw [h, responseBody_api_only, write_mem_fprintlnChecked]
    exact ⟨⟨fun x => absurd x n1, fun x => absurd x.1 hm⟩,
      ⟨fun x => absurd x n4, fun x => absurd x.1 hm⟩⟩
  · rw [h]
    refine ⟨⟨fun x => absurd x (by simp [responseBody]), ?_⟩,
      ⟨fun x => by simp at x, ?_⟩⟩ <;>
    · rintro ⟨-, body, data, stmt, hb2, -⟩
      rw [hb] at hb2
      cases hb2
  · rw [h]
    refine ⟨⟨fun x => absurd x (by simp [responseBody]), ?_⟩,
      ⟨fun x => by simp at x, ?_⟩⟩ <;>
    · rintro ⟨-, body2, data, stmt, hb2, hu2, -⟩
      rw [hb] at hb2
      cases hb2
      rw [hu] at hu2
      cases hu2
  · rw [h, responseBody_bad_key, write_mem_fprintlnChecked]
    refine ⟨⟨fun x => absurd x n2, ?_⟩, ⟨fun x => absurd x n5, ?_⟩⟩ <;>
    · rintro ⟨-, body2, data2, stmt, hb2, hu2, hk2, -⟩
      rw [hb] at hb2
      cases hb2
      rw [hu] at hu2
      cases hu2
      exact absurd hk2 hk
  · rw [h]
    refine ⟨⟨fun x => absurd x (by simp [responseBody]), ?_⟩,
      ⟨fun x => by simp at x, ?_⟩⟩ <;>
    · rintro ⟨-, body2, data2, stmt, hb2, hu2, hk2, hp2, -⟩
      rw [hp] at hp2
      cases hp2
  · rw [h]
    refine ⟨⟨fun x => absurd x (by simp [responseBody]), ?_⟩,
      ⟨fun x => by simp at x, ?_⟩⟩ <;>
    · rintro ⟨-, body2, data2, stmt2, hb2, hu2, hk2, hp2, he2⟩
      rw [hb] at hb2
      cases hb2
      rw [hu] at hu2
      cases hu2
      rw [hp] at hp2
      cases hp2
      rw [he] at he2
      cases he2
  · rw [h]
    have hc : r.Method = "POST" ∧ ∃ body data stmt, r.Body = Except.ok body
          ∧ env.unmarshal body Data.zero = Except.ok data
          ∧ data.Key = env.config.espkey
          ∧ env.db.Prepare (insertQuery env.config.dbtable) = Except.ok stmt
          ∧ stmt.Exec (bindValues env data) = none :=
      ⟨hm, body, data, stmt, hb, hu, hk, hp, he⟩
    refine ⟨⟨fun _ => hc, fun _ => ?_⟩, ⟨fun _ => hc, fun _ => ?_⟩⟩
    · simp [responseBody, Fprintln]
    · simp [Fprintln]

/-- C6, as written, fails: on the sample POST the response body is none of the
four values the claim lists ("Success", "Key is not provided or incorrect",
"API only can be called by POST Request", empty). -/
theorem c6_body_outside_the_four_values :
    responseBody (handleDataReceivedRequest (sampleEnv okDB) (requestOf "POST" sampleBody))
        ≠ "Success"
    ∧ responseBody (handleDataReceivedRequest (sampleEnv okDB) (requestOf "POST" sampleBody))
        ≠ "Key is not provided or incorrect"
    ∧ responseBody (handleDataReceivedRequest (sampleEnv okDB) (requestOf "POST" sampleBody))
        ≠ "API only can be called by POST Request"
    ∧ responseBody (handleDataReceivedRequest (sampleEnv okDB) (requestOf "POST" sampleBody))
        ≠ "" := by
  decide

/-- C6, amended: for every request and every outcome of the database calls,
the handler never calls `WriteHeader` (the status stays 200) and the response
body is one of exactly four values: "Success", "Key is not provided or
incorrect" or "API only can be called by POST Request", each followed by one
newline, or the empty body; each of the four occurs. -/
theorem c6_status_and_bodies (env : Env) (r : Request) :
    (∀ e ∈ handleDataReceivedRequest env r, e.isWriteHeader = false)
    ∧ statusCode (handleDataReceivedRequest env r) = 200
    ∧ (responseBody (handleDataReceivedRequest env r) = "Success\n"
      ∨ responseBody (handleDataReceivedRequest env r) = "Key is not provided or incorrect\n"
      ∨ responseBody (handleDataReceivedRequest env r)
          = "API only can be called by POST Request\n"
      ∨ responseBody (handleDataReceivedRequest env r) = "")
    ∧ (∃ env2 r2, responseBody (handleDataReceivedRequest env2 r2) = "Success\n")
    ∧ (∃ env2 r2, responseBody (handleDataReceivedRequest env2 r2)
          = "Key is not provided or incorrect\n")
    ∧ (∃ env2 r2, responseBody (handleDataReceivedRequest env2 r2)
          = "API only can be called by POST Request\n")
    ∧ (∃ env2 r2, responseBody (handleDataReceivedRequest env2 r2) = "") := by
  refine ⟨?_, ?_, ?_, ⟨sampleEnv okDB, requestOf "POST" sampleBody, by decide⟩,
    ⟨sampleEnv okDB, requestOf "POST" wrongKeyBody, by decide⟩,
    ⟨sampleEnv okDB, requestOf "GET" sampleBody, by decide⟩,
    ⟨sampleEnv okDB, requestOf "POST" truncatedBody, by decide⟩⟩
  all_goals
    rcases handle_cases env r with ⟨hm, h⟩ | ⟨e, hm, hb, h⟩ | ⟨body, e, hm, hb, hu, h⟩
      | ⟨body, data, hm, hb, hu, hk, h⟩ | ⟨body, data, e, hm, hb, hu, hk, hp, h⟩
      | ⟨body, data, stmt, e, hm, hb, hu, hk, hp, he, h⟩
      | ⟨body, data, stmt, hm, hb, hu, hk, hp, he, h⟩ <;>
    rw [h] <;>
    first
      | exact not_isWriteHeader_fprintlnChecked _ _
      | simp [responseBody_api_only, responseBody_bad_key, statusCode_fprintlnChecked,
          responseBody, statusCode, Effect.isWriteHeader, Fprintln]

/-! ## Database errors, the query text, and a body without key -/

theorem preparedQueries_fprintlnChecked (env : Env) (msg : String) :
    preparedQueries (FprintlnChecked env msg) = [] := by
  rcases fprintlnChecked_cases env msg with h | ⟨e, h⟩ <;> simp [h, preparedQueries]

theorem execArgs_fprintlnChecked (env : Env) (msg : String) :
    execArgs (FprintlnChecked env msg) = [] := by
  rcases fprintlnChecked_cases env msg with h | ⟨e, h⟩ <;> simp [h, execArgs]

theorem not_isFailedDbCall_fprintlnChecked (env : Env) (msg : String) :
    ∀ e ∈ FprintlnChecked env msg, e.isFailedDbCall = false := by
  rcases fprintlnChecked_cases env msg with h | ⟨e, h⟩ <;> simp [h, Effect.isFailedDbCall]

/-- A POST that decodes and carries the configured key has exactly one
statement prepared, the insert on the configured table. -/
theorem preparedQueries_of_authenticated (env : Env) (r : Request) (body : Bytes)
    (data : Data) (hm : r.Method = "POST") (hb : r.Body = Except.ok body)
    (hu : env.unmarshal body Data.zero = Except.ok data)
    (hk : data.Key = env.config.espkey) :
    preparedQueries (handleDataReceivedRequest env r) = [insertQuery env.config.dbtable] := by
  cases hp : env.db.Prepare (insertQuery env.config.dbtable) with
  | error e =>
    rw [handle_of_prepare_error env r body data e hm hb hu hk hp]
    simp [preparedQueries]
  | ok stmt =>
    cases he : stmt.Exec (bindValues env data) with
    | some e =>
      rw [handle_of_exec_error env r body data stmt e hm hb hu hk hp he]
      simp [preparedQueries]
    | none =>
      rw [handle_of_success env r body data stmt hm hb hu hk hp he]
      simp [preparedQueries, Fprintln]

/-- C8: when `db.Prepare` or `stmt.Exec` returns an error the handler hands
nothing to the response writer (the body is empty) and never calls
`WriteHeader`; and within one request `Prepare` is called at most once and
`Exec` at most once, so nothing is retried. -/
theorem c8_db_error_silent_no_retry (env : Env) (r : Request) :
    ((∃ e ∈ handleDataReceivedRequest env r, e.isFailedDbCall = true) →
        responseBody (handleDataReceivedRequest env r) = ""
        ∧ (∀ bytes, Effect.write bytes ∉ handleDataReceivedRequest env r)
        ∧ (∀ e ∈ handleDataReceivedRequest env r, e.isWriteHeader = false)
        ∧ statusCode (handleDataReceivedRequest env r) = 200)
    ∧ (preparedQueries (handleDataReceivedRequest env r)).length ≤ 1
    ∧ (execArgs (handleDataReceivedRequest env r)).length ≤ 1 := by
  rcases handle_cases env r with ⟨hm, h⟩ | ⟨e, hm, hb, h⟩ | ⟨body, e, hm, hb, hu, h⟩
    | ⟨body, data, hm, hb, hu, hk, h⟩ | ⟨body, data, e, hm, hb, hu, hk, hp, h⟩
    | ⟨body, data, stmt, e, hm, hb, hu, hk, hp, he, h⟩
    | ⟨body, data, stmt, hm, hb, hu, hk, hp, he, h⟩
  · rw [h, preparedQueries_fprintlnChecked, execArgs_fprintlnChecked]
    refine ⟨?_, by simp, by simp⟩
    rintro ⟨e, he, hf⟩
    rw [not_isFailedDbCall_fprintlnChecked env _ e he] at hf
    cases hf
  · rw [h]
    simp [Effect.isFailedDbCall, preparedQueries, execArgs]
  · rw [h]
    simp [Effect.isFailedDbCall, preparedQueries, execArgs]
  · rw [h, preparedQueries_fprintlnChecked, execArgs_fprintlnChecked]
    refine ⟨?_, by simp, by simp⟩
    rintro ⟨e, he, hf⟩
    rw [not_isFailedDbCall_fprintlnChecked env _ e he] at hf
    cases hf
  · rw [h]
    simp [Effect.isFailedDbCall, Effect.isWriteHeader, responseBody, statusCode,
      preparedQueries, execArgs]
  · rw [h]
    simp [Effect.isFailedDbCall, Effect.isWriteHeader, responseBody, statusCode,
      preparedQueries, execArgs]
  · rw [h]
    simp [Effect.isFailedDbCall, preparedQueries, execArgs, Fprintln]

/-- C8 at the sample POST against a database whose execution fails, and against
one whose preparation fails. -/
theorem c8_db_error_silent_no_retry_witness :
    (∃ e ∈ handleDataReceivedRequest (sampleEnv execFailingDB) (requestOf "POST" sampleBody),
        e.isFailedDbCall = true)
    ∧ responseBody
        (handleDataReceivedRequest (sampleEnv execFailingDB) (requestOf "POST" sampleBody)) = ""
    ∧ responseBody
        (handleDataReceivedRequest (sampleEnv prepareFailingDB) (requestOf "POST" sampleBody))
        = "" :=
  ⟨⟨Effect.exec [SqlArg.str "2021-03-04T05:06:07+08:00", SqlArg.f32 f19_9, SqlArg.f32 f42_1]
      (some "sql: expected 5 arguments, got 3"), by decide, rfl⟩,
   ((c8_db_error_silent_no_retry (sampleEnv execFailingDB) (requestOf "POST" sampleBody)).1
      ⟨Effect.exec [SqlArg.str "2021-03-04T05:06:07+08:00", SqlArg.f32 f19_9, SqlArg.f32 f42_1]
        (some "sql: expected 5 arguments, got 3"), by decide, rfl⟩).1,
   ((c8_db_error_silent_no_retry (sampleEnv prepareFailingDB) (requestOf "POST" sampleBody)).1
      ⟨Effect.prepare
        "INSERT INTO table1 (time,temperature,humidity,light,moisture) VALUES(?,?,?,?,?);"
        (some "connection refused"), by decide, rfl⟩).1⟩

/-- C9: the text passed to `db.Prepare` depends only on the configured table:
any two POST requests that decode and carry the configured key, handled under
configurations with the same `dbtable`, have the same prepared statement text,
the insert query of that table, whatever the requests' keys, temperatures and
humidities and whatever the database answers. -/
theorem c9_query_text_independent_of_request (env₁ env₂ : Env) (r₁ r₂ : Request)
    (body₁ body₂ : Bytes) (data₁ data₂ : Data)
    (hcfg : env₁.config.dbtable = env₂.config.dbtable)
    (hm₁ : r₁.Method = "POST") (hb₁ : r₁.Body = Except.ok body₁)
    (hu₁ : env₁.unmarshal body₁ Data.zero = Except.ok data₁)
    (hk₁ : data₁.Key = env₁.config.espkey)
    (hm₂ : r₂.Method = "POST") (hb₂ : r₂.Body = Except.ok body₂)
    (hu₂ : env₂.unmarshal body₂ Data.zero = Except.ok data₂)
    (hk₂ : data₂.Key = env₂.config.espkey) :
    preparedQueries (handleDataReceivedRequest env₁ r₁)
        = preparedQueries (handleDataReceivedRequest env₂ r₂)
    ∧ preparedQueries (handleDataReceivedRequest env₁ r₁) = [insertQuery env₁.config.dbtable] := by
  rw [preparedQueries_of_authenticated env₁ r₁ body₁ data₁ hm₁ hb₁ hu₁ hk₁,
    preparedQueries_of_authenticated env₂ r₂ body₂ data₂ hm₂ hb₂ hu₂ hk₂, hcfg]
  exact ⟨rfl, rfl⟩

/-- C9 at two requests with different keys and readings: the sample body under
the key "abc" and the body without key under the empty key. -/
theorem c9_query_text_independent_of_request_witness :
    preparedQueries (handleDataReceivedRequest (sampleEnv okDB) (requestOf "POST" sampleBody))
      = preparedQueries
          (handleDataReceivedRequest (emptyKeyEnv execFailingDB) (requestOf "POST" keylessBody)) :=
  (c9_query_text_independent_of_request (sampleEnv okDB) (emptyKeyEnv execFailingDB)
    (requestOf "POST" sampleBody) (requestOf "POST" keylessBody) sampleBody keylessBody
    { Key := "abc", Temperature := f19_9, Humidity := f42_1 }
    { Key := "", Temperature := f19_9, Humidity := f42_1 }
    rfl rfl rfl rfl rfl rfl rfl rfl rfl).1

/-- C10, as written, fails in its last clause: the POST whose body has no `key`
member is decoded with the empty key, the configured key "abc" is not empty,
and the response is not the text "Key is not provided or incorrect": it is that
text and a newline. -/
theorem c10_keyless_body_is_not_bare_message :
    (sampleEnv okDB).unmarshal keylessBody Data.zero
        = Except.ok { Key := "", Temperature := f19_9, Humidity := f42_1 }
    ∧ (sampleEnv okDB).config.espkey ≠ ""
    ∧ responseBody (handleDataReceivedRequest (sampleEnv okDB) (requestOf "POST" keylessBody))
        ≠ "Key is not provided or incorrect"
    ∧ responseBody (handleDataReceivedRequest (sampleEnv okDB) (requestOf "POST" keylessBody))
        = "Key is not provided or incorrect\n" :=
  ⟨rfl, by decide, by decide, by decide⟩

/-- C10, amended: when a POST body decodes and the decoder leaves the `Key`
field of the struct untouched on it (what `json.Unmarshal` does for a body
without `key` member), the decoded key is the empty string, the zero value the
handler starts from; the request reaches the insert exactly when the configured
`espkey` is the empty string; and for every non-empty `espkey` the response
body is "Key is not provided or incorrect" followed by one newline, with no
database call. -/
theorem c10_keyless_body (env : Env) (r : Request) (body : Bytes) (data : Data)
    (hm : r.Method = "POST") (hb : r.Body = Except.ok body)
    (hu : env.unmarshal body Data.zero = Except.ok data)
    (hleave : ∀ d d2, env.unmarshal body d = Except.ok d2 → d2.Key = d.Key) :
    data.Key = ""
    ∧ (preparedQueries (handleDataReceivedRequest env r) = [insertQuery env.config.dbtable]
        ↔ env.config.espkey = "")
    ∧ (env.config.espkey ≠ "" →
        responseBody (handleDataReceivedRequest env r) = "Key is not provided or incorrect\n"
        ∧ dbCalls (handleDataReceivedRequest env r) = []) := by
  have hkey : data.Key = "" := hleave Data.zero data hu
  refine ⟨hkey, ⟨fun hq => ?_, fun he => ?_⟩, fun hne => ?_⟩
  · by_contra hne
    have hk : data.Key ≠ env.config.espkey := by rw [hkey]; exact fun x => hne x.symm
    rw [handle_of_bad_key env r body data hm hb hu hk, preparedQueries_fprintlnChecked] at hq
    cases hq
  · exact preparedQueries_of_authenticated env r body data hm hb hu (by rw [hkey, he])
  · have hk : data.Key ≠ env.config.espkey := by rw [hkey]; exact fun x => hne x.symm
    rw [handle_of_bad_key env r body data hm hb hu hk]
    exact ⟨responseBody_bad_key env, dbCalls_fprintlnChecked env _⟩

theorem sampleUnmarshal_keyless_leaves_key (d d2 : Data)
    (h : sampleUnmarshal keylessBody d = Except.ok d2) : d2.Key = d.Key := by
  have hne : keylessBody ≠ sampleBody := by decide
  simp only [sampleUnmarshal, hne, if_false, if_true] at h
  cases h
  rfl

/-- The amended C10 at the body without key: under the empty configured key the
insert is reached, under the key "abc" the request is rejected. -/
theorem c10_keyless_body_witness :
    (emptyKeyEnv okDB).unmarshal keylessBody Data.zero
        = Except.ok { Key := "", Temperature := f19_9, Humidity := f42_1 }
    ∧ preparedQueries
        (handleDataReceivedRequest (emptyKeyEnv okDB) (requestOf "POST" keylessBody))
        = [insertQuery "table1"]
    ∧ responseBody (handleDataReceivedRequest (sampleEnv okDB) (requestOf "POST" keylessBody))
        = "Key is not provided or incorrect\n"
    ∧ dbCalls (handleDataReceivedRequest (sampleEnv okDB) (requestOf "POST" keylessBody))
        = [] :=
  ⟨rfl,
   (c10_keyless_body (emptyKeyEnv okDB) (requestOf "POST" keylessBody) keylessBody
      { Key := "", Temperature := f19_9, Humidity := f42_1 } rfl rfl rfl
      sampleUnmarshal_keyless_leaves_key).2.1.mpr rfl,
   ((c10_keyless_body (sampleEnv okDB) (requestOf "POST" keylessBody) keylessBody
      { Key := "", Temperature := f19_9, Humidity := f42_1 } rfl rfl rfl
      sampleUnmarshal_keyless_leaves_key).2.2 (by decide)).1,
   ((c10_keyless_body (sampleEnv okDB) (requestOf "POST" keylessBody) keylessBody
      { Key := "", Temperature := f19_9, Humidity := f42_1 } rfl rfl rfl
      sampleUnmarshal_keyless_leaves_key).2.2 (by decide)).2⟩

end SoilSensorApi
